import Mathlib

/-!
Verification of the monthly-expense forecasting pipeline of `src/main.py`
(a personal finance dashboard).  The core under study is the block

    expense_df = df[df["Amount"] < 0].copy()
    if "Date" in expense_df.columns and not expense_df.empty:
        expense_df["Date"] = pd.to_datetime(expense_df["Date"], errors="coerce")
        expense_df = expense_df.dropna(subset=["Date"])
        expense_df["Month"] = expense_df["Date"].dt.to_period("M").astype(str)
        monthly_expense = expense_df.groupby("Month")["Amount"].sum().abs()
        if len(monthly_expense) >= 3:
            ts = monthly_expense.copy()
            ts.index = pd.date_range(start=ts.index[0], periods=len(ts), freq='M')
            model = ARIMA(ts, order=(1, 1, 1)); model_fit = model.fit()
            forecast = model_fit.forecast(steps=3)
            future_dates = pd.date_range(start=ts.index[-1] + pd.offsets.MonthBegin(),
                                         periods=3, freq='M')
            forecast_df = pd.DataFrame({
                "Month": ts.index.strftime("%Y-%m").tolist()
                         + future_dates.strftime("%Y-%m").tolist(),
                "Amount": ts.tolist() + forecast.tolist()})
        else: st.info("Add at least 3 months of expenses to see forecasts.")
    else: st.info("No valid expense dates available to forecast.")

Modelling choices:
* A calendar date is a record of year / month / day; `pd.to_datetime(errors="coerce")`
  turning an unparseable value into `NaT` is modelled by the `Date` field of a
  transaction being an `Option`: `none` is `NaT` / missing.
* A calendar month (pandas `Period("M")`, rendered "YYYY-MM") is identified with its
  absolute month number `year * 12 + (month - 1) : Nat`; lexicographic order on the
  "YYYY-MM" strings used by `groupby` coincides with `≤` on these numbers.
* Monetary amounts are exact integers (signed, as in the source: negative = expense);
  the numeric outputs of the fitted model are rationals.
* The ARIMA fit itself is external library code (`statsmodels`); the pipeline is
  parametric in a function `fit : List Int → FitOutcome` standing for
  `ARIMA(ts, order=(1,1,1)).fit()` followed by `.forecast(steps=3)`: it either
  returns the list of predicted values or raises.  The source wraps the call in no
  try/except, so a raising fit propagates out of the script; the constructor
  `PipeResult.uncaughtError` records that propagation.
-/

/-- A parsed calendar date, as produced by `pd.to_datetime`.  `month` is 1..12. -/
structure Date where
  year : Nat
  month : Nat
  day : Nat
deriving DecidableEq, Repr

/-- The absolute month number of a date: what `date.dt.to_period("M")` buckets by.
Two dates get the same period number exactly when they share year and month. -/
def Date.toPeriodM (d : Date) : Nat :=
  d.year * 12 + (d.month - 1)

/-- One row of the transaction table: `Date` (`none` = missing / unparseable,
i.e. `NaT` after `errors="coerce"`) and the signed `Amount` (negative = expense). -/
structure Transaction where
  date : Option Date
  amount : Int
deriving DecidableEq, Repr

/-- `expense_df = df[df["Amount"] < 0].copy()` — the expense rows of the table. -/
def expense_df (df : List Transaction) : List Transaction :=
  df.filter (fun t => t.amount < 0)

/-- `expense_df = expense_df.dropna(subset=["Date"])` after the coercing parse:
the expense rows whose date parsed. -/
def validExpenses (df : List Transaction) : List Transaction :=
  (expense_df df).filter (fun t => t.date.isSome)

/-- `expense_df["Month"]` for one row: the month bucket of its date. -/
def monthOf (t : Transaction) : Option Nat :=
  t.date.map Date.toPeriodM

/-- The month buckets of the valid expense rows, one per row, in row order
(the `Month` column that `groupby` keys on). -/
def observedMonths (df : List Transaction) : List Nat :=
  (validExpenses df).filterMap monthOf

/-- Insert a key into a strictly increasing list, keeping it strictly increasing
(duplicates collapse, as `groupby` keys are distinct). -/
def insertKey (m : Nat) : List Nat → List Nat
  | [] => [m]
  | x :: xs =>
      if m < x then m :: x :: xs
      else if m = x then x :: xs
      else x :: insertKey m xs

/-- The distinct group keys, sorted ascending: `groupby` sorts its keys, and on
"YYYY-MM" strings lexicographic order is chronological order. -/
def sortedKeys (l : List Nat) : List Nat :=
  l.foldr insertKey []

/-- The group keys of `groupby("Month")` in the order the series carries them:
the distinct observed months, ascending. -/
def monthKeys (df : List Transaction) : List Nat :=
  sortedKeys (observedMonths df)

/-- The sum of the (signed) amounts of the valid expense rows in month `m`:
`groupby("Month")["Amount"].sum()` at key `m`. -/
def bucketSum (df : List Transaction) (m : Nat) : Int :=
  (((validExpenses df).filter (fun t => monthOf t = some m)).map Transaction.amount).sum

/-- `monthly_expense = expense_df.groupby("Month")["Amount"].sum().abs()`:
the ordered series of (month bucket, |sum of amounts in the bucket|). -/
def monthly_expense (df : List Transaction) : List (Nat × Int) :=
  (monthKeys df).map (fun m => (m, |bucketSum df m|))

/-- `ts.index = pd.date_range(start=ts.index[0], periods=len(ts), freq='M')`:
the REWRITTEN month axis of the series — `len(ts)` consecutive months starting at
the earliest bucket, regardless of which months the buckets actually were. -/
def tsIndex (df : List Transaction) : List Nat :=
  match monthKeys df with
  | [] => []
  | m0 :: _ => (List.range (monthKeys df).length).map (fun n => m0 + n)

/-- `future_dates = pd.date_range(start=ts.index[-1] + pd.offsets.MonthBegin(), periods=3, freq='M')`:
the 3 consecutive months after the LAST entry of the rewritten axis. -/
def futureMonths (df : List Transaction) : List Nat :=
  match (tsIndex df).getLast? with
  | none => []
  | some last => [last + 1, last + 2, last + 3]

/-- Outcome of `ARIMA(ts, order=(1,1,1)).fit()` + `.forecast(steps=3)`: either the
predicted values or an exception (with its message).  External library code, so the
pipeline is parametric in it. -/
inductive FitOutcome where
  | ok (preds : List ℚ)
  | error (cause : String)
deriving DecidableEq, Repr

/-- Result of one run of the forecasting block.
`noValidDates` = the `st.info("No valid expense dates ...")` branch;
`needMoreMonths` = the `st.info("Add at least 3 months ...")` branch;
`uncaughtError` = the fit raised and, there being no try/except in the source,
the exception propagated out of the script run;
`ok fc` = `forecast_df` was built, as the list of its (Month, Amount) rows. -/
inductive PipeResult where
  | noValidDates
  | needMoreMonths
  | uncaughtError (cause : String)
  | ok (forecast_df : List (Nat × ℚ))
deriving DecidableEq, Repr

/-- The history values of `ts.tolist()`, as rationals (floats in the source). -/
def histVals (df : List Transaction) : List ℚ :=
  (monthly_expense df).map (fun p => ((p.2 : ℤ) : ℚ))

/-- The `len(monthly_expense) >= 3` branch: fit, forecast 3 steps, and assemble
`forecast_df` with Month column `ts.index ++ future_dates` and Amount column
`ts.tolist() + forecast.tolist()`.  No exception handler surrounds the fit. -/
def fitBranch (fit : List Int → FitOutcome) (df : List Transaction) : PipeResult :=
  match fit ((monthly_expense df).map Prod.snd) with
  | FitOutcome.error c => PipeResult.uncaughtError c
  | FitOutcome.ok preds =>
      PipeResult.ok ((tsIndex df ++ futureMonths df).zip (histVals df ++ preds))

/-- The whole forecasting block of `src/main.py` (lines 69–99), parametric in the
external ARIMA fit.  The emptiness test is on `expense_df` BEFORE the date dropna,
exactly as in the source. -/
def runPipeline (fit : List Int → FitOutcome) (df : List Transaction) : PipeResult :=
  if expense_df df = [] then PipeResult.noValidDates
  else if 3 ≤ (monthly_expense df).length then fitBranch fit df
  else PipeResult.needMoreMonths

/-- Modelled from the spec: the months-needed count attached to the
`InsufficientHistory` signal — "3 - length, minimum 1".  The source has no such
structured signal (it shows a fixed message), so this policy is taken from the
spec text. -/
def monthsNeeded (len : Nat) : Nat :=
  max (3 - len) 1

/-! ### Concrete inputs used by counterexamples and witnesses -/

/-- Two expense rows, one in 2024-01 and one in 2024-03, with no expense in
2024-02 in between. -/
def dfGapPair : List Transaction :=
  [⟨some ⟨2024, 1, 15⟩, -100⟩, ⟨some ⟨2024, 3, 10⟩, -50⟩]

/-- Three expense rows in 2024-01, 2024-06 and 2024-07: three monthly buckets
whose observed months contain a large gap. -/
def dfGapped3 : List Transaction :=
  [⟨some ⟨2024, 1, 5⟩, -10⟩, ⟨some ⟨2024, 6, 5⟩, -20⟩, ⟨some ⟨2024, 7, 5⟩, -30⟩]

/-- Three expense rows in three consecutive months 2024-01, 2024-02, 2024-03
(the spec's end-to-end example magnitudes 100, 150, 120). -/
def dfContig3 : List Transaction :=
  [⟨some ⟨2024, 1, 5⟩, -100⟩, ⟨some ⟨2024, 2, 5⟩, -150⟩, ⟨some ⟨2024, 3, 5⟩, -120⟩]

/-- Expense rows spanning only two monthly buckets (2024-01, 2024-02). -/
def dfTwoMonths : List Transaction :=
  [⟨some ⟨2024, 1, 1⟩, -5⟩, ⟨some ⟨2024, 2, 1⟩, -7⟩]

/-- A fit stub that always succeeds with fixed predictions. -/
def fitOk : List Int → FitOutcome :=
  fun _ => FitOutcome.ok [(1 : ℚ), 2, 3]

/-- A fit stub whose predictions are negative, zero and very large. -/
def fitWild : List Int → FitOutcome :=
  fun _ => FitOutcome.ok [(-5 : ℚ), 0, 1000000]

/-- A fit stub that always raises (as `statsmodels` can on degenerate input). -/
def fitRaise : List Int → FitOutcome :=
  fun _ => FitOutcome.error "LinAlgError"

/-! ### Properties of the sorted-distinct-keys construction -/

theorem mem_insertKey {a m : Nat} : ∀ {xs : List Nat}, a ∈ insertKey m xs ↔ a = m ∨ a ∈ xs
  | [] => by simp [insertKey]
  | x :: xs => by
      unfold insertKey
      by_cases h1 : m < x
      · simp [h1]
      · by_cases h2 : m = x
        · subst h2; simp [h1]
        · have ih : a ∈ insertKey m xs ↔ a = m ∨ a ∈ xs := mem_insertKey
          simp [h1, h2, List.mem_cons, ih]
          tauto

theorem sorted_insertKey {m : Nat} : ∀ {xs : List Nat},
    List.Sorted (· < ·) xs → List.Sorted (· < ·) (insertKey m xs)
  | [], _ => by simp [insertKey]
  | x :: xs, h => by
      have hx := List.rel_of_sorted_cons h
      have hxs := (List.sorted_cons.mp h).2
      unfold insertKey
      by_cases h1 : m < x
      · simp only [if_pos h1]
        exact List.sorted_cons.mpr ⟨fun b hb => by
          rcases List.mem_cons.mp hb with rfl | hb
          · exact h1
          · exact h1.trans (hx b hb), h⟩
      · by_cases h2 : m = x
        · simp only [if_neg h1, if_pos h2]; exact h
        · simp only [if_neg h1, if_neg h2]
          refine List.sorted_cons.mpr ⟨fun b hb => ?_, sorted_insertKey hxs⟩
          rcases mem_insertKey.mp hb with rfl | hb
          · omega
          · exact hx b hb

theorem sorted_sortedKeys : ∀ l : List Nat, List.Sorted (· < ·) (sortedKeys l)
  | [] => by simp [sortedKeys]
  | x :: xs => by
      have ih := sorted_sortedKeys xs
      simpa [sortedKeys] using sorted_insertKey ih

theorem mem_sortedKeys {a : Nat} : ∀ {l : List Nat}, a ∈ sortedKeys l ↔ a ∈ l
  | [] => by simp [sortedKeys]
  | x :: xs => by
      have ih : a ∈ sortedKeys xs ↔ a ∈ xs := mem_sortedKeys
      simp [sortedKeys] at ih ⊢
      rw [mem_insertKey, ih]

theorem sortedKeys_eq_of_perm {l l2 : List Nat} (h : l.Perm l2) :
    sortedKeys l = sortedKeys l2 := by
  haveI : IsAntisymm Nat (· < ·) := ⟨fun a b h1 h2 => absurd h2 (Nat.lt_asymm h1)⟩
  have s1 := sorted_sortedKeys l
  have s2 := sorted_sortedKeys l2
  refine List.eq_of_perm_of_sorted ?_ s1 s2
  refine List.perm_of_nodup_nodup_toFinset_eq s1.nodup s2.nodup ?_
  ext a
  simp only [List.mem_toFinset, mem_sortedKeys]
  exact ⟨fun ha => h.mem_iff.mp ha, fun ha => h.mem_iff.mpr ha⟩

/-! ### Shared structural lemmas about the pipeline -/

theorem length_monthly_expense (df : List Transaction) :
    (monthly_expense df).length = (monthKeys df).length :=
  List.length_map _ _

theorem length_histVals (df : List Transaction) :
    (histVals df).length = (monthKeys df).length := by
  simp [histVals, length_monthly_expense]

theorem length_tsIndex (df : List Transaction) :
    (tsIndex df).length = (monthKeys df).length := by
  unfold tsIndex
  cases h : monthKeys df with
  | nil => simp
  | cons m0 rest => simp [h]

theorem monthly_expense_congr {l l2 : List Transaction}
    (h : validExpenses l = validExpenses l2) :
    monthly_expense l = monthly_expense l2 := by
  unfold monthly_expense monthKeys observedMonths bucketSum
  rw [h]

theorem expense_df_ne_nil_of_monthly {df : List Transaction}
    (h : monthly_expense df ≠ []) : ¬expense_df df = [] := by
  intro he
  apply h
  have hv : validExpenses df = [] := by simp [validExpenses, he]
  simp [monthly_expense, monthKeys, observedMonths, hv, sortedKeys]

theorem runPipeline_eq_fitBranch (fit : List Int → FitOutcome)
    (df : List Transaction) (h3 : 3 ≤ (monthly_expense df).length) :
    runPipeline fit df = fitBranch fit df := by
  have hne : monthly_expense df ≠ [] := by
    intro h; rw [h] at h3; simp at h3
  unfold runPipeline
  rw [if_neg (expense_df_ne_nil_of_monthly hne), if_pos h3]

theorem getLast?_range_map (m0 j : Nat) :
    ((List.range (j + 1)).map (fun n => m0 + n)).getLast? = some (m0 + j) := by
  rw [List.range_succ, List.map_append]
  exact List.getLast?_concat _

theorem sum_nonpos_and_abs {l : List Int} (h : ∀ x ∈ l, x ≤ 0) :
    l.sum ≤ 0 ∧ |l.sum| = (l.map (fun x => |x|)).sum := by
  induction l with
  | nil => simp
  | cons x xs ih =>
      have hx : x ≤ 0 := h x (List.mem_cons_self x xs)
      have hxs := ih (fun y hy => h y (List.mem_cons_of_mem x hy))
      constructor
      · simp only [List.sum_cons]; omega
      · simp only [List.sum_cons, List.map_cons]
        rw [abs_of_nonpos (by omega : x + xs.sum ≤ 0), abs_of_nonpos hx,
          ← hxs.2, abs_of_nonpos hxs.1]
        ring

/-! ### Claim theorems -/

/-- C1: the spec asserts the series builder output is gap-free — exactly
`(last_month - first_month) + 1` entries, absent months inserted with value 0.
The source performs no densification: `groupby("Month")` yields only the
observed months.  Evaluated at two expenses dated 2024-01-15 (amount -100) and
2024-03-10 (amount -50): the series has 2 entries, month 2024-02 (number 24289)
is absent and no zero entry is inserted, while the claim requires
(24290 - 24288) + 1 = 3 entries. -/
theorem gap_free_invariant_failure :
    monthly_expense dfGapPair = [(24288, 100), (24290, 50)] ∧
    (monthly_expense dfGapPair).length = 2 ∧
    (24290 - 24288) + 1 = 3 ∧
    (24289, 0) ∉ monthly_expense dfGapPair ∧
    24289 ∉ monthKeys dfGapPair := by decide

/-- C5: the series builder keeps exactly the rows with a negative amount and a
parseable date — restricting the input to those rows changes nothing — and an
input of income-only rows (every amount > 0) yields an empty series. -/
theorem filter_and_income_exclusion (df : List Transaction) :
    monthly_expense df =
      monthly_expense (df.filter (fun t => decide (t.amount < 0) && t.date.isSome)) ∧
    ((∀ t ∈ df, 0 < t.amount) → monthly_expense df = []) := by
  constructor
  · apply monthly_expense_congr
    unfold validExpenses expense_df
    rw [List.filter_filter, List.filter_filter, List.filter_filter]
    apply List.filter_congr
    intro t _
    by_cases h1 : t.amount < 0 <;> by_cases h2 : t.date.isSome = true <;>
      simp [h1, h2]
  · intro hpos
    have he : expense_df df = [] := by
      apply List.filter_eq_nil_iff.mpr
      intro t ht
      have := hpos t ht
      simp only [decide_eq_true_eq]
      omega
    have hv : validExpenses df = [] := by simp [validExpenses, he]
    simp [monthly_expense, monthKeys, observedMonths, hv, sortedKeys]

/-- Income-only transaction list (all amounts positive). -/
def dfIncome : List Transaction :=
  [⟨some ⟨2024, 1, 2⟩, 400⟩, ⟨some ⟨2024, 2, 2⟩, 250⟩, ⟨none, 7⟩]

/-- Witness for C5 at a concrete income-only list. -/
theorem filter_and_income_exclusion_witness :
    monthly_expense dfIncome = [] :=
  (filter_and_income_exclusion dfIncome).2 (by decide)

/-- C6: every value of the series is the sum of the absolute values of the
valid expense rows (amount < 0, parseable date) in that month, and hence
non-negative.  The source computes `|sum|` per bucket; since every amount in a
bucket is negative, this equals the sum of absolute values. -/
theorem monthly_value_is_abs_sum (df : List Transaction) (m : Nat) (v : Int)
    (h : (m, v) ∈ monthly_expense df) :
    v = (((validExpenses df).filter (fun t => monthOf t = some m)).map
          (fun t => |t.amount|)).sum ∧ 0 ≤ v := by
  obtain ⟨m1, hm1, heq⟩ := List.mem_map.mp h
  have h1 : m1 = m := congrArg Prod.fst heq
  have h2 : |bucketSum df m1| = v := congrArg Prod.snd heq
  rw [h1] at h2
  have hneg : ∀ x ∈ ((validExpenses df).filter
      (fun t => monthOf t = some m)).map Transaction.amount, x ≤ 0 := by
    intro x hx
    obtain ⟨t, ht, rfl⟩ := List.mem_map.mp hx
    have ht1 : t ∈ validExpenses df := List.mem_of_mem_filter ht
    have ht2 : t ∈ expense_df df := List.mem_of_mem_filter ht1
    have := (List.mem_filter.mp ht2).2
    simp only [decide_eq_true_eq] at this
    omega
  have habs := (sum_nonpos_and_abs hneg).2
  constructor
  · rw [← h2]
    unfold bucketSum
    rw [habs, List.map_map]
    rfl
  · rw [← h2]
    exact abs_nonneg _

/-- Witness for C6: in the contiguous example, month 2024-01 carries value 100,
the sum of the absolute amounts of its expenses. -/
theorem monthly_value_is_abs_sum_witness :
    (100 : Int) = (((validExpenses dfContig3).filter
        (fun t => monthOf t = some 24288)).map (fun t => |t.amount|)).sum ∧
    (0 : Int) ≤ 100 :=
  monthly_value_is_abs_sum dfContig3 24288 100 (by decide)

/-- C7: the series builder is order-insensitive — permuting the transaction
list leaves the monthly series unchanged (grouping keys and bucket sums are
permutation-invariant). -/
theorem monthly_expense_perm_invariant (l l2 : List Transaction)
    (h : l.Perm l2) : monthly_expense l = monthly_expense l2 := by
  have hv : (validExpenses l).Perm (validExpenses l2) := (h.filter _).filter _
  have hkeys : monthKeys l = monthKeys l2 :=
    sortedKeys_eq_of_perm (hv.filterMap monthOf)
  have hb : ∀ m, bucketSum l m = bucketSum l2 m := fun m =>
    (((hv.filter _)).map Transaction.amount).sum_eq
  unfold monthly_expense
  rw [hkeys]
  exact List.map_congr_left (fun m _ => by rw [hb m])

/-- The gap pair in the opposite input order. -/
def dfGapPairSwapped : List Transaction :=
  [⟨some ⟨2024, 3, 10⟩, -50⟩, ⟨some ⟨2024, 1, 15⟩, -100⟩]

/-- Witness for C7 at a concrete two-element permutation. -/
theorem monthly_expense_perm_invariant_witness :
    monthly_expense dfGapPair = monthly_expense dfGapPairSwapped :=
  monthly_expense_perm_invariant dfGapPair dfGapPairSwapped (by decide)

theorem futureMonths_spec (df : List Transaction) (m0 : Nat) (rest : List Nat)
    (h : monthKeys df = m0 :: rest) :
    tsIndex df = (List.range (rest.length + 1)).map (fun n => m0 + n) ∧
    (tsIndex df).getLast? = some (m0 + rest.length) ∧
    futureMonths df =
      [m0 + rest.length + 1, m0 + rest.length + 2, m0 + rest.length + 3] := by
  have hts : tsIndex df = (List.range (rest.length + 1)).map (fun n => m0 + n) := by
    unfold tsIndex
    rw [h]
    simp
  have hgl : (tsIndex df).getLast? = some (m0 + rest.length) := by
    rw [hts]
    exact getLast?_range_map m0 rest.length
  refine ⟨hts, hgl, ?_⟩
  unfold futureMonths
  rw [hgl]

/-- C2: the length-3 threshold.  When the series has fewer than 3 monthly
buckets the pipeline refuses: it ends in one of the two informational branches,
attempting neither fit nor forecast, and the months-needed policy (modelled
from the spec as `monthsNeeded`) evaluates to `3 - length`, at least 1.  With
3 or more buckets the pipeline proceeds to the fit branch. -/
theorem forecaster_threshold (fit : List Int → FitOutcome)
    (df : List Transaction) :
    ((monthly_expense df).length < 3 →
      (runPipeline fit df = PipeResult.needMoreMonths ∨
       runPipeline fit df = PipeResult.noValidDates) ∧
      monthsNeeded (monthly_expense df).length =
        3 - (monthly_expense df).length ∧
      1 ≤ monthsNeeded (monthly_expense df).length) ∧
    (3 ≤ (monthly_expense df).length →
      runPipeline fit df = fitBranch fit df) := by
  constructor
  · intro hlt
    refine ⟨?_, by unfold monthsNeeded; omega, by unfold monthsNeeded; omega⟩
    unfold runPipeline
    by_cases he : expense_df df = []
    · rw [if_pos he]
      right
      rfl
    · rw [if_neg he, if_neg (by omega : ¬3 ≤ (monthly_expense df).length)]
      left
      rfl
  · exact runPipeline_eq_fitBranch fit df

/-- Witness for C2: two monthly buckets refuse (needing 3 - 2 = 1 more month);
three buckets proceed to the fit. -/
theorem forecaster_threshold_witness :
    (runPipeline fitOk dfTwoMonths = PipeResult.needMoreMonths ∨
     runPipeline fitOk dfTwoMonths = PipeResult.noValidDates) ∧
    monthsNeeded (monthly_expense dfTwoMonths).length =
      3 - (monthly_expense dfTwoMonths).length ∧
    runPipeline fitOk dfContig3 = fitBranch fitOk dfContig3 :=
  ⟨((forecaster_threshold fitOk dfTwoMonths).1 (by decide)).1,
   ((forecaster_threshold fitOk dfTwoMonths).1 (by decide)).2.1,
   (forecaster_threshold fitOk dfContig3).2 (by decide)⟩

/-- C4 counterexample: the source wraps `model.fit()` in no try/except, so a
raising fit is NOT surfaced as a structured `ForecastFailed` value — it
propagates out of the pipeline uncaught (modelled by
`PipeResult.uncaughtError`).  Evaluated on the spec's own example series
(100, 150, 120) with a fit that raises `LinAlgError`. -/
theorem forecast_failure_counterexample :
    runPipeline fitRaise dfContig3 = PipeResult.uncaughtError "LinAlgError" := by
  decide

/-- C4 amended: when the fit raises on a series of length ≥ 3, the exception
propagates uncaught out of the forecasting block, carrying its cause; the code
substitutes no fallback or default forecast (the result is never `ok`). -/
theorem fit_failure_propagates (fit : List Int → FitOutcome)
    (df : List Transaction) (c : String)
    (h3 : 3 ≤ (monthly_expense df).length)
    (hfit : fit ((monthly_expense df).map Prod.snd) = FitOutcome.error c) :
    runPipeline fit df = PipeResult.uncaughtError c ∧
    ∀ out, runPipeline fit df ≠ PipeResult.ok out := by
  have h := runPipeline_eq_fitBranch fit df h3
  have hb : fitBranch fit df = PipeResult.uncaughtError c := by
    unfold fitBranch
    rw [hfit]
  refine ⟨by rw [h, hb], ?_⟩
  intro out hco
  rw [h, hb] at hco
  exact PipeResult.noConfusion hco

/-- Witness for C4's amended statement at a concrete series and raising fit. -/
theorem fit_failure_propagates_witness :
    runPipeline fitRaise dfGapped3 = PipeResult.uncaughtError "LinAlgError" ∧
    ∀ out, runPipeline fitRaise dfGapped3 ≠ PipeResult.ok out :=
  fit_failure_propagates fitRaise dfGapped3 "LinAlgError" (by decide) (by decide)

/-- C9: no clamping — the values the pipeline attaches to the 3 future months
are exactly the numbers the fitted model returned, unmodified (negative, zero
or arbitrarily large values pass straight through). -/
theorem forecast_values_unclamped (fit : List Int → FitOutcome)
    (df : List Transaction) (preds : List ℚ)
    (h3 : 3 ≤ (monthly_expense df).length)
    (hfit : fit ((monthly_expense df).map Prod.snd) = FitOutcome.ok preds)
    (hp : preds.length = 3) :
    ∃ out, runPipeline fit df = PipeResult.ok out ∧
      (out.map Prod.snd).drop (monthly_expense df).length = preds := by
  have hkeys : monthKeys df ≠ [] := by
    intro hk
    rw [length_monthly_expense, hk] at h3
    simp at h3
  obtain ⟨m0, rest, hk⟩ : ∃ m0 rest, monthKeys df = m0 :: rest := by
    cases hck : monthKeys df with
    | nil => exact absurd hck hkeys
    | cons a b => exact ⟨a, b, rfl⟩
  obtain ⟨hts, hgl, hfm⟩ := futureMonths_spec df m0 rest hk
  refine ⟨(tsIndex df ++ futureMonths df).zip (histVals df ++ preds), ?_, ?_⟩
  · rw [runPipeline_eq_fitBranch fit df h3]
    unfold fitBranch
    rw [hfit]
  · have hlen : (histVals df ++ preds).length ≤
        (tsIndex df ++ futureMonths df).length := by
      rw [List.length_append, List.length_append, length_histVals,
        length_tsIndex, hfm, hp]
      simp
    rw [List.map_snd_zip _ _ hlen, length_monthly_expense,
      ← length_histVals df, List.drop_left]

/-- Witness for C9: a fit returning (-5, 0, 1000000) has those exact values in
the output rows for the 3 future months. -/
theorem forecast_values_unclamped_witness :
    ∃ out, runPipeline fitWild dfContig3 = PipeResult.ok out ∧
      (out.map Prod.snd).drop (monthly_expense dfContig3).length =
        [(-5 : ℚ), 0, 1000000] :=
  forecast_values_unclamped fitWild dfContig3 [(-5 : ℚ), 0, 1000000]
    (by decide) (by decide) (by decide)

/-- C3 counterexample: with expenses in 2024-01, 2024-06 and 2024-07 (month
numbers 24288, 24293, 24294) the forecast labels are 24291–24293 — they do not
follow the last month of the historical series (24294: the first forecast label
is not 24294 + 1) and label 24293 overlaps an actual history month.  The claim
fails whenever the observed months have gaps, because the axis is rewritten. -/
theorem horizon_contract_counterexample :
    monthly_expense dfGapped3 = [(24288, 10), (24293, 20), (24294, 30)] ∧
    runPipeline fitOk dfGapped3 =
      PipeResult.ok [(24288, 10), (24289, 20), (24290, 30),
                     (24291, 1), (24292, 2), (24293, 3)] ∧
    futureMonths dfGapped3 = [24291, 24292, 24293] ∧
    (monthKeys dfGapped3).getLast? = some 24294 ∧
    24291 ≠ 24294 + 1 ∧
    24293 ∈ monthKeys dfGapped3 := by decide

/-- C3 amended: when the observed months are contiguous (the rewritten axis
coincides with the actual group keys, `tsIndex df = monthKeys df`), a
successful fit yields exactly 3 forecast entries whose labels are the 3
consecutive months immediately after the last historical month, with no gap
and no overlap with the history. -/
theorem horizon_contract_amended (fit : List Int → FitOutcome)
    (df : List Transaction) (preds : List ℚ)
    (h3 : 3 ≤ (monthly_expense df).length)
    (hfit : fit ((monthly_expense df).map Prod.snd) = FitOutcome.ok preds)
    (hp : preds.length = 3)
    (hgap : tsIndex df = monthKeys df) :
    ∃ L, (monthKeys df).getLast? = some L ∧
      futureMonths df = [L + 1, L + 2, L + 3] ∧
      (∀ m ∈ futureMonths df, m ∉ monthKeys df) ∧
      runPipeline fit df =
        PipeResult.ok ((monthKeys df).zip (histVals df) ++
          (futureMonths df).zip preds) ∧
      ((futureMonths df).zip preds).length = 3 := by
  have hkeys : monthKeys df ≠ [] := by
    intro hnil
    rw [length_monthly_expense, hnil] at h3
    simp at h3
  obtain ⟨m0, rest, hk⟩ : ∃ m0 rest, monthKeys df = m0 :: rest := by
    cases hck : monthKeys df with
    | nil => exact absurd hck hkeys
    | cons a b => exact ⟨a, b, rfl⟩
  obtain ⟨hts, hgl, hfm⟩ := futureMonths_spec df m0 rest hk
  refine ⟨m0 + rest.length, by rw [← hgap]; exact hgl, hfm, ?_, ?_, ?_⟩
  · intro m hm hmem
    rw [← hgap, hts] at hmem
    obtain ⟨n, hn, hne⟩ := List.mem_map.mp hmem
    rw [List.mem_range] at hn
    rw [hfm] at hm
    simp only [List.mem_cons, List.not_mem_nil, or_false] at hm
    omega
  · have hlen : (tsIndex df).length = (histVals df).length := by
      rw [length_tsIndex, length_histVals]
    have hfb : fitBranch fit df =
        PipeResult.ok ((tsIndex df ++ futureMonths df).zip
          (histVals df ++ preds)) := by
      unfold fitBranch
      rw [hfit]
    rw [runPipeline_eq_fitBranch fit df h3, hfb, List.zip_append hlen, hgap]
  · rw [List.length_zip, hfm, hp]
    simp

/-- Witness for C3's amended statement on the contiguous 3-month example. -/
theorem horizon_contract_amended_witness :
    ∃ L, (monthKeys dfContig3).getLast? = some L ∧
      futureMonths dfContig3 = [L + 1, L + 2, L + 3] ∧
      (∀ m ∈ futureMonths dfContig3, m ∉ monthKeys dfContig3) ∧
      runPipeline fitOk dfContig3 =
        PipeResult.ok ((monthKeys dfContig3).zip (histVals dfContig3) ++
          (futureMonths dfContig3).zip [(1 : ℚ), 2, 3]) ∧
      ((futureMonths dfContig3).zip [(1 : ℚ), 2, 3]).length = 3 :=
  horizon_contract_amended fitOk dfContig3 [(1 : ℚ), 2, 3]
    (by decide) (by decide) (by decide) (by decide)

/-- C8: the output's history labels are the k consecutive months starting at
the earliest observed expense month — the nth bucket is relabeled
`earliest + n` regardless of its actual month — and the forecast labels
continue that rewritten axis with `earliest + k`, `earliest + k + 1`,
`earliest + k + 2`. -/
theorem relabeled_axis (fit : List Int → FitOutcome) (df : List Transaction)
    (preds : List ℚ) (m0 : Nat) (rest : List Nat)
    (hk : monthKeys df = m0 :: rest)
    (h3 : 3 ≤ (monthly_expense df).length)
    (hfit : fit ((monthly_expense df).map Prod.snd) = FitOutcome.ok preds)
    (hp : preds.length = 3) :
    m0 ∈ observedMonths df ∧
    (∀ m ∈ observedMonths df, m0 ≤ m) ∧
    tsIndex df = (List.range (monthKeys df).length).map (fun n => m0 + n) ∧
    futureMonths df = [m0 + (monthKeys df).length,
      m0 + (monthKeys df).length + 1, m0 + (monthKeys df).length + 2] ∧
    ∃ out, runPipeline fit df = PipeResult.ok out ∧
      out.map Prod.fst = tsIndex df ++ futureMonths df := by
  obtain ⟨hts, hgl, hfm⟩ := futureMonths_spec df m0 rest hk
  have hklen : (monthKeys df).length = rest.length + 1 := by
    rw [hk]
    rfl
  have hsorted : List.Sorted (fun a b => a < b) (m0 :: rest) := by
    rw [← hk]
    exact sorted_sortedKeys (observedMonths df)
  refine ⟨?_, ?_, by rw [hklen, hts], ?_, ?_⟩
  · exact mem_sortedKeys.mp (by rw [monthKeys] at hk; rw [hk]; exact List.mem_cons_self m0 rest)
  · intro m hm
    have : m ∈ m0 :: rest := by
      rw [← hk]
      exact mem_sortedKeys.mpr hm
    rcases List.mem_cons.mp this with rfl | hmr
    · exact Nat.le_refl m
    · exact Nat.le_of_lt (List.rel_of_sorted_cons hsorted m hmr)
  · rw [hfm, hklen]
    simp only [List.cons.injEq, and_true]
    omega
  · refine ⟨(tsIndex df ++ futureMonths df).zip (histVals df ++ preds), ?_, ?_⟩
    · rw [runPipeline_eq_fitBranch fit df h3]
      unfold fitBranch
      rw [hfit]
    · have hlen : (tsIndex df ++ futureMonths df).length ≤
          (histVals df ++ preds).length := by
        rw [List.length_append, List.length_append, length_histVals,
          length_tsIndex, hfm, hp]
        simp
      exact List.map_fst_zip _ _ hlen

/-- Witness for C8 on the gapped input: the buckets for 2024-01, 2024-06 and
2024-07 come out labeled 24288, 24289, 24290 (2024-01..2024-03), and the
forecast labels continue with 24291–24293. -/
theorem relabeled_axis_witness :
    24288 ∈ observedMonths dfGapped3 ∧
    (∀ m ∈ observedMonths dfGapped3, 24288 ≤ m) ∧
    tsIndex dfGapped3 =
      (List.range (monthKeys dfGapped3).length).map (fun n => 24288 + n) ∧
    futureMonths dfGapped3 = [24288 + (monthKeys dfGapped3).length,
      24288 + (monthKeys dfGapped3).length + 1,
      24288 + (monthKeys dfGapped3).length + 2] ∧
    ∃ out, runPipeline fitOk dfGapped3 = PipeResult.ok out ∧
      out.map Prod.fst = tsIndex dfGapped3 ++ futureMonths dfGapped3 :=
  relabeled_axis fitOk dfGapped3 [(1 : ℚ), 2, 3] 24288 [24293, 24294]
    (by decide) (by decide) (by decide) (by decide)

/-- Statement-for-statement frame-passing form of the forecasting block, used
to express the frame condition on the transaction table.  The table `df` is
bound once; `df[df["Amount"] < 0].copy()` creates an independent frame
(`.copy()` severs any view onto the table's storage), and every later
assignment in the source targets that copy (`expense_df["Date"] = ...`,
`expense_df = expense_df.dropna(...)`, `expense_df["Month"] = ...`) or fresh
locals (`monthly_expense`, `ts`, `forecast_df`); no statement assigns to `df`
or to `st.session_state.transactions`.  The function returns the table the
block leaves behind, alongside its result. -/
def runPipelineFrames (fit : List Int → FitOutcome) (df : List Transaction) :
    List Transaction × PipeResult :=
  let expenseA := df.filter (fun t => t.amount < 0)
  if expenseA = [] then (df, PipeResult.noValidDates)
  else
    let expenseB := expenseA.filter (fun t => t.date.isSome)
    let keys := sortedKeys (expenseB.filterMap monthOf)
    let monthly := keys.map (fun m =>
      (m, |((expenseB.filter (fun t => monthOf t = some m)).map
        Transaction.amount).sum|))
    if 3 ≤ monthly.length then
      match fit (monthly.map Prod.snd) with
      | FitOutcome.error c => (df, PipeResult.uncaughtError c)
      | FitOutcome.ok preds =>
          (df, PipeResult.ok ((tsIndex df ++ futureMonths df).zip
            ((monthly.map (fun p => ((p.2 : Int) : ℚ))) ++ preds)))
    else (df, PipeResult.needMoreMonths)

/-- C10: the forecasting block never mutates the input transaction table — in
the frame-passing translation the table component comes out unchanged, and the
result component agrees with the pipeline's result on the untouched table. -/
theorem pipeline_preserves_table (fit : List Int → FitOutcome)
    (df : List Transaction) :
    runPipelineFrames fit df = (df, runPipeline fit df) := by
  show (if expense_df df = [] then (df, PipeResult.noValidDates)
    else if 3 ≤ (monthly_expense df).length then
      match fit ((monthly_expense df).map Prod.snd) with
      | FitOutcome.error c => (df, PipeResult.uncaughtError c)
      | FitOutcome.ok preds =>
          (df, PipeResult.ok ((tsIndex df ++ futureMonths df).zip
            (histVals df ++ preds)))
    else (df, PipeResult.needMoreMonths)) = (df, runPipeline fit df)
  unfold runPipeline fitBranch
  by_cases he : expense_df df = []
  · rw [if_pos he, if_pos he]
  · rw [if_neg he, if_neg he]
    by_cases h3 : 3 ≤ (monthly_expense df).length
    · rw [if_pos h3, if_pos h3]
      cases fit ((monthly_expense df).map Prod.snd) with
      | ok preds => rfl
      | error c => rfl
    · rw [if_neg h3, if_neg h3]
